import Mathlib

/-!
Shallow embedding of the traa-mcp snapshot server
(src/traa_mcp_server/tools/snapshot.py, src/traa_mcp_server/server/app.py,
src/traa_mcp_server/client/app.py) and proofs about its claims.

Python exceptions are modelled as values of `PyError`; a Python function that
may raise returns `Except PyError α`.  The native capture backend
(`traa.create_snapshot`) and the PIL/file-system effects are external
collaborators: their behaviour is supplied as an explicit environment value,
and each modelled function additionally reports whether the backend was
actually consulted, so that "fails before the backend is invoked" is a
provable statement.
-/

namespace TraaMcp

/-- Python exception kinds that occur in the modelled code paths.
`valueError` and `runtimeError` are raised by the repository's own code;
`osError`, `traaError` (the `traa.Error` class) and `otherError` (any other
`Exception` subclass) can be raised by the external collaborators. -/
inductive PyError where
  | valueError (m : String)
  | runtimeError (m : String)
  | osError (m : String)
  | traaError (m : String)
  | otherError (m : String)
deriving DecidableEq, Repr

/-- `str(e)` of an exception: its message. -/
def PyError.msg : PyError → String
  | .valueError m => m
  | .runtimeError m => m
  | .osError m => m
  | .traaError m => m
  | .otherError m => m

/-- A numpy `ndarray` as produced by the capture backend: a `rows × cols ×
channels` uint8 array with its pixel data flattened row-major. -/
structure NDArray where
  rows : Nat
  cols : Nat
  channels : Nat
  data : List Nat
deriving DecidableEq, Repr

/-- `traa.Size`. -/
structure TraaSize where
  width : Int
  height : Int
deriving DecidableEq, Repr

/-- A Python object as far as the `isinstance` checks in `_create_snapshot`
can tell it apart: a numpy array, a `traa.Size`, or anything else. -/
inductive PyObj where
  | ndarray (a : NDArray)
  | size (s : TraaSize)
  | other
deriving DecidableEq, Repr

/-- The value returned by `traa.create_snapshot` when it does not raise:
`None`, a 2-tuple, or some other non-unpackable value. -/
inductive CaptureResult where
  | none
  | pair (fst snd : PyObj)
  | nonPair
deriving DecidableEq, Repr

/-- A PIL image: its mode string ("RGB" or "RGBA" in the modelled paths),
its size, and its flattened pixel data. -/
structure PILImage where
  mode : String
  width : Nat
  height : Nat
  data : List Nat
deriving DecidableEq, Repr

/-- `PILImage.fromarray` on a uint8 array: 4 channels gives mode "RGBA",
3 channels gives mode "RGB", anything else raises a `TypeError`
(modelled as `otherError`). -/
def PILImage.fromarray (a : NDArray) : Except PyError PILImage :=
  if a.channels = 4 then
    .ok ⟨"RGBA", a.cols, a.rows, a.data⟩
  else if a.channels = 3 then
    .ok ⟨"RGB", a.cols, a.rows, a.data⟩
  else
    .error (.otherError "Cannot handle this data type")

/-- Drop every fourth byte of a flattened RGBA buffer (the alpha samples),
leaving the RGB samples: the pixel-level effect of `convert("RGB")`. -/
def dropAlpha : List Nat → List Nat
  | r :: g :: b :: _ :: rest => r :: g :: b :: dropAlpha rest
  | l => l

/-- `img.convert("RGB")`: on an RGBA image drops the alpha channel, on an
RGB image it is a copy. -/
def PILImage.convertRGB (img : PILImage) : PILImage :=
  if img.mode = "RGBA" then
    ⟨"RGB", img.width, img.height, dropAlpha img.data⟩
  else
    { img with mode := "RGB" }

/-- The encoded byte stream produced by `PILImage.save`, recording the
encoding parameters the call was made with together with the bytes. -/
structure EncodedImage where
  format : String
  quality : Int
  optimize : Bool
  bytes : List Nat
deriving DecidableEq, Repr

/-- A codec's container header: JPEG starts with the SOI marker, PNG with
its signature, so an encoded file is never empty. -/
def formatHeader (format : String) : List Nat :=
  if format = "jpeg" then [255, 216, 255, 224]
  else [137, 80, 78, 71, 13, 10, 26, 10]

/-- `PILImage.save(..., format=format, quality=quality, optimize=optimize)`:
the external PIL encoder, modelled as header bytes followed by the image
data, with the parameters of the call recorded. -/
def pilSave (img : PILImage) (format : String) (quality : Int) (optimize : Bool) :
    EncodedImage :=
  ⟨format, quality, optimize, formatHeader format ++ img.data⟩

/-- `mcp.server.fastmcp.utilities.types.Image`: the payload returned by
`create_snapshot` (`data` stands for `buffer.getvalue()`). -/
structure MCPImage where
  data : EncodedImage
  format : String
deriving DecidableEq, Repr

/-- An absolute file path as its list of components (the file name last). -/
abbrev FilePath := List String

/-- All the directories an `os.makedirs(dir, exist_ok=True)` call creates:
every non-empty component-prefix of `dir`. -/
def ancestors (dir : FilePath) : List FilePath :=
  (List.range dir.length).map (fun n => dir.take (n + 1))

/-- The file-system state `save_snapshot` reads and writes: the set of
existing directories and the files with their contents. -/
structure FileSystem where
  dirs : List FilePath
  files : List (FilePath × EncodedImage)
deriving DecidableEq, Repr

/-- `os.makedirs(dir, exist_ok=True)`: create `dir` and every missing
ancestor; existing directories are left alone. -/
def FileSystem.makedirs (fs : FileSystem) (dir : FilePath) : FileSystem :=
  { fs with dirs := (ancestors dir).filter (fun d => !fs.dirs.contains d) ++ fs.dirs }

/-- Write (or overwrite) the file at `p`. -/
def FileSystem.writeFile (fs : FileSystem) (p : FilePath) (enc : EncodedImage) :
    FileSystem :=
  { fs with files := (p, enc) :: fs.files.filter (fun e => e.1 ≠ p) }

/-- Read the file at `p`, if present. -/
def FileSystem.readFile (fs : FileSystem) (p : FilePath) : Option EncodedImage :=
  (fs.files.find? (fun e => e.1 = p)).map (fun e => e.2)

/-- Behaviour of the external collaborators for one call: what
`traa.create_snapshot` does when invoked, and whether `os.makedirs` or a
`PILImage.save` raises (`none` means it succeeds). -/
structure SnapshotEnv where
  capture : Except PyError CaptureResult
  mkdirError : Option PyError
  fileSaveError : Option PyError
deriving Repr

/-- The `try`/`except` block of `_create_snapshot` (snapshot.py lines
61-81): invoke `traa.create_snapshot`, check its result structurally,
build the PIL image; `except traa.Error as e` re-raises as
`RuntimeError("Failed to create snapshot: {e}")` and `except Exception as
e` as `RuntimeError("Unexpected error during snapshot creation: {e}")` —
the latter also re-wraps the two `RuntimeError("Invalid result format:
...")` raised inside the `try` body itself. -/
def captureTry (capture : Except PyError CaptureResult) (format : String) :
    Except PyError PILImage :=
  match capture with
  | .error (.traaError m) =>
      .error (.runtimeError ("Failed to create snapshot: " ++ m))
  | .error e =>
      .error (.runtimeError
        ("Unexpected error during snapshot creation: " ++ e.msg))
  | .ok r =>
    match r with
    | .none =>
        -- raise RuntimeError("Invalid result format: ... returned None")
        -- inside the try, re-wrapped by the `except Exception` clause
        .error (.runtimeError
          ("Unexpected error during snapshot creation: " ++
           "Invalid result format: traa.create_snapshot returned None"))
    | .nonPair =>
        -- `image_data, actual_size = result` raises TypeError, re-wrapped
        .error (.runtimeError
          ("Unexpected error during snapshot creation: " ++
           "cannot unpack non-sequence"))
    | .pair (.ndarray a) (.size _) =>
        match PILImage.fromarray a with
        | .error e =>
            .error (.runtimeError
              ("Unexpected error during snapshot creation: " ++ e.msg))
        | .ok img =>
            .ok (if format = "jpeg" then img.convertRGB else img)
    | .pair _ _ =>
        -- raise RuntimeError("Invalid result format: unexpected types"),
        -- re-wrapped by the `except Exception` clause
        .error (.runtimeError
          ("Unexpected error during snapshot creation: " ++
           "Invalid result format: unexpected types"))

/-- `_create_snapshot(source_id, size, format)` from
src/traa_mcp_server/tools/snapshot.py lines 47-81.  The first component is
the Python result (`ok` a PIL image, or the raised exception); the second
records whether `traa.create_snapshot` was invoked (it is the first
statement of the `try` block, so it runs exactly when validation passed). -/
def _create_snapshot (capture : Except PyError CaptureResult)
    (source_id : Int) (size : Int × Int) (format : String) :
    Except PyError PILImage × Bool :=
  if source_id < 0 then
    (.error (.valueError "Source ID must be non-negative"), false)
  else
    let (width, height) := size
    if width ≤ 0 ∨ height ≤ 0 then
      (.error (.valueError "Width and height must be positive"), false)
    else if format ∉ (["jpeg", "png"] : List String) then
      (.error (.valueError ("Unsupported format: " ++ format)), false)
    else
      (captureTry capture format, true)

/-- The `except` chain of the public `create_snapshot`: a `ValueError` is
re-raised as is, any other exception `e` becomes
`RuntimeError("Unexpected error during snapshot creation: {e}")`. -/
def wrapCreate : PyError → PyError
  | .valueError m => .valueError m
  | e => .runtimeError ("Unexpected error during snapshot creation: " ++ e.msg)

/-- `create_snapshot(source_id, size)` from snapshot.py lines 83-115:
always encodes as jpeg with quality 60 and optimize=True into an in-memory
buffer and returns an `MCPImage`. -/
def create_snapshot (env : SnapshotEnv) (source_id : Int) (size : Int × Int) :
    Except PyError MCPImage × Bool :=
  let constFormat := "jpeg"
  match _create_snapshot env.capture source_id size constFormat with
  | (.error e, called) => (.error (wrapCreate e), called)
  | (.ok img, called) =>
      (.ok ⟨pilSave img constFormat 60 true, constFormat⟩, called)

/-- The `except` chain of `save_snapshot`: a `ValueError` is re-raised as
is, any other exception `e` becomes
`RuntimeError("Failed to save snapshot: {e}")`. -/
def wrapSave : PyError → PyError
  | .valueError m => .valueError m
  | e => .runtimeError ("Failed to save snapshot: " ++ e.msg)

/-- The default values of `save_snapshot`'s `quality` and `format`
parameters (snapshot.py line 117). -/
def saveSnapshotDefaultQuality : Int := 80

/-- The default value of `save_snapshot`'s `format` parameter. -/
def saveSnapshotDefaultFormat : String := "jpeg"

/-- `save_snapshot(source_id, size, file_path, quality=80, format="jpeg")`
from snapshot.py lines 117-144.  Returns the Python result, the resulting
file system and whether the backend was invoked.  `file_path` is an
absolute path, so `os.path.dirname(os.path.abspath(file_path))` is its
list of components without the final file name. -/
def save_snapshot (env : SnapshotEnv) (fs : FileSystem) (source_id : Int)
    (size : Int × Int) (file_path : FilePath) (quality : Int) (format : String) :
    Except PyError Unit × FileSystem × Bool :=
  match _create_snapshot env.capture source_id size format with
  | (.error e, called) => (.error (wrapSave e), fs, called)
  | (.ok img, called) =>
      match env.mkdirError with
      | some e => (.error (wrapSave e), fs, called)
      | Option.none =>
          let fs1 := fs.makedirs file_path.dropLast
          match env.fileSaveError with
          | some e => (.error (wrapSave e), fs1, called)
          | Option.none =>
              (.ok (), fs1.writeFile file_path (pilSave img format quality true),
               called)

/-- A screen source as reported by `traa.enum_screen_sources` (fields read
by the repository: `id`, `title`, `is_window`, `rect`). -/
structure TraaRect where
  left : Int
  top : Int
  right : Int
  bottom : Int
deriving DecidableEq, Repr

/-- A backend screen source. -/
structure TraaScreenSourceInfo where
  id : Int
  title : String
  is_window : Bool
  rect : TraaRect
deriving DecidableEq, Repr

/-- `SimpleScreenSourceInfo` from snapshot.py lines 20-25. -/
structure SimpleScreenSourceInfo where
  id : Int
  title : String
  is_window : Bool
  rect : Int × Int × Int × Int
deriving DecidableEq, Repr

/-- `enum_screen_sources()` from snapshot.py lines 27-45: maps each backend
source to a `SimpleScreenSourceInfo`; a `traa.Error` becomes
`RuntimeError("Failed to enumerate screen sources: {e}")`, any other
exception propagates unchanged (no catch-all clause). -/
def enum_screen_sources
    (backend : Except PyError (List TraaScreenSourceInfo)) :
    Except PyError (List SimpleScreenSourceInfo) :=
  match backend with
  | .ok sources =>
      .ok (sources.map (fun s =>
        ⟨s.id, s.title, s.is_window,
         (s.rect.left, s.rect.top, s.rect.right, s.rect.bottom)⟩))
  | .error (.traaError m) =>
      .error (.runtimeError ("Failed to enumerate screen sources: " ++ m))
  | .error e => .error e

/-- A registered MCP tool as FastMCP advertises it: its name, description
and the parameter names of the wrapper function's signature (FastMCP
derives the input schema from that signature, and all of these parameters
are required). -/
structure ToolDescriptor where
  name : String
  description : String
  params : List String
deriving DecidableEq, Repr

/-- The `enum_screen_sources` tool registered in
src/traa_mcp_server/server/app.py lines 45-51. -/
def enumScreenSourcesTool : ToolDescriptor :=
  ⟨"enum_screen_sources",
   "Enumerate all screen and window sources available on the system and return a list of SimpleScreenSourceInfo",
   []⟩

/-- The `create_snapshot` tool registered in app.py lines 53-59. -/
def createSnapshotTool : ToolDescriptor :=
  ⟨"create_snapshot",
   "Create a snapshot of the screen source with the given ID and return it as an image",
   ["source_id", "snapshot_size"]⟩

/-- The `save_snapshot` tool registered in app.py lines 61-67: its wrapper
takes only `source_id`, `snapshot_size` and `file_path`. -/
def saveSnapshotTool : ToolDescriptor :=
  ⟨"save_snapshot",
   "Save a snapshot of the screen source with the given ID to a file",
   ["source_id", "snapshot_size", "file_path"]⟩

/-- The tool registry built by `register_tools` (app.py lines 42-67), in
registration order. -/
def registeredTools : List ToolDescriptor :=
  [enumScreenSourcesTool, createSnapshotTool, saveSnapshotTool]

/-- The body of `save_snapshot_tool` (app.py lines 65-67):
`save_snapshot(source_id, snapshot_size, file_path)`, so the underlying
function's defaults `quality=80`, `format="jpeg"` always apply. -/
def save_snapshot_tool (env : SnapshotEnv) (fs : FileSystem) (source_id : Int)
    (snapshot_size : Int × Int) (file_path : FilePath) :
    Except PyError Unit × FileSystem × Bool :=
  save_snapshot env fs source_id snapshot_size file_path
    saveSnapshotDefaultQuality saveSnapshotDefaultFormat

/-- The body of `create_snapshot_tool` (app.py lines 57-59). -/
def create_snapshot_tool (env : SnapshotEnv) (source_id : Int)
    (snapshot_size : Int × Int) : Except PyError MCPImage × Bool :=
  create_snapshot env source_id snapshot_size

/-- The accepted truthy strings of the client's boolean coercion
(src/traa_mcp_server/client/app.py line 111). -/
def truthyValues : List String := ["true", "yes", "1", "t"]

/-- The client-side boolean coercion, client/app.py line 111:
`value.lower() in ('true', 'yes', '1', 't')`.  A total function: the
membership test cannot raise. -/
def coerce_boolean (value : String) : Bool :=
  truthyValues.contains value.toLower

/-! ### Named error values

Abbreviations for the exceptions `_create_snapshot` raises, written with
the same string expressions as the definition above. -/

/-- The exception escaping `_create_snapshot` when the backend returns
`None` (the `InvalidBackendResult` case of the spec). -/
def invalidBackendNoneError : PyError :=
  .runtimeError
    ("Unexpected error during snapshot creation: " ++
     "Invalid result format: traa.create_snapshot returned None")

/-- The exception escaping `_create_snapshot` when the backend returns a
pair of unexpected types (the other `InvalidBackendResult` case). -/
def invalidBackendTypesError : PyError :=
  .runtimeError
    ("Unexpected error during snapshot creation: " ++
     "Invalid result format: unexpected types")

/-- The exception escaping `_create_snapshot` when the backend raises
`traa.Error(m)` (the `CaptureFailed` case of the spec). -/
def captureFailedError (m : String) : PyError :=
  .runtimeError ("Failed to create snapshot: " ++ m)

/-! ### Concrete fixtures used by the witnesses -/

/-- A 2×2 4-channel RGBA array with every sample equal to 7. -/
def sampleArray : NDArray := ⟨2, 2, 4, List.replicate 16 7⟩

/-- A backend that captures `sampleArray` successfully. -/
def sampleCapture : Except PyError CaptureResult :=
  .ok (.pair (.ndarray sampleArray) (.size ⟨2, 2⟩))

/-- An environment in which every external collaborator succeeds. -/
def goodEnv : SnapshotEnv := ⟨sampleCapture, Option.none, Option.none⟩

/-- An empty file system. -/
def emptyFS : FileSystem := ⟨[], []⟩

/-- A file path with not-yet-existing parent directories. -/
def samplePath : FilePath := ["tmp", "nested", "dir", "out.png"]

/-- One backend screen source, as in the repository's test scenario. -/
def sampleSource : TraaScreenSourceInfo :=
  ⟨1, "Test Window", true, ⟨0, 0, 1920, 1080⟩⟩

/-! ### Helper lemmas -/

/-- When validation passes, `_create_snapshot` runs the `try` block and the
backend is invoked. -/
lemma create_snapshot_valid (capture : Except PyError CaptureResult)
    (sid w h : Int) (fmt : String)
    (hsid : 0 ≤ sid) (hw : 0 < w) (hh : 0 < h)
    (hfmt : fmt ∈ (["jpeg", "png"] : List String)) :
    _create_snapshot capture sid (w, h) fmt = (captureTry capture fmt, true) := by
  have h1 : ¬ sid < 0 := by omega
  have h2 : ¬ (w ≤ 0 ∨ h ≤ 0) := by omega
  have h3 : ¬ fmt ∉ (["jpeg", "png"] : List String) := not_not_intro hfmt
  have h4 : fmt = "jpeg" ∨ fmt = "png" := by simpa using hfmt
  simp [_create_snapshot, h1, h2, h3]
  intro h5
  rcases h4 with h4 | h4
  · exact absurd h4 h5
  · exact h4

/-- When validation fails, `_create_snapshot` raises a `ValueError` and the
backend is not invoked. -/
lemma create_snapshot_invalid (capture : Except PyError CaptureResult)
    (sid w h : Int) (fmt : String) (hbad : sid < 0 ∨ w ≤ 0 ∨ h ≤ 0) :
    ∃ m, _create_snapshot capture sid (w, h) fmt =
      (.error (.valueError m), false) := by
  by_cases h1 : sid < 0
  · exact ⟨"Source ID must be non-negative", by simp [_create_snapshot, h1]⟩
  · have h2 : w ≤ 0 ∨ h ≤ 0 := by omega
    exact ⟨"Width and height must be positive",
      by simp [_create_snapshot, h1, h2]⟩

/-- `wrapCreate` only produces `ValueError` or `RuntimeError`. -/
lemma wrapCreate_shape (e : PyError) :
    (∃ m, wrapCreate e = .valueError m) ∨
    (∃ m, wrapCreate e = .runtimeError m) := by
  cases e <;> simp [wrapCreate]

/-- `wrapSave` only produces `ValueError` or `RuntimeError`. -/
lemma wrapSave_shape (e : PyError) :
    (∃ m, wrapSave e = .valueError m) ∨
    (∃ m, wrapSave e = .runtimeError m) := by
  cases e <;> simp [wrapSave]

/-- Reading back a just-written file yields the written content. -/
lemma readFile_writeFile (fs : FileSystem) (p : FilePath) (enc : EncodedImage) :
    (fs.writeFile p enc).readFile p = some enc := by
  simp [FileSystem.writeFile, FileSystem.readFile, List.find?]

/-- `makedirs` creates every ancestor of the requested directory. -/
lemma mem_makedirs (fs : FileSystem) (dir : FilePath) (d : FilePath)
    (hd : d ∈ ancestors dir) : d ∈ (fs.makedirs dir).dirs := by
  by_cases hin : d ∈ fs.dirs
  · simp [FileSystem.makedirs]
    exact .inr hin
  · simp [FileSystem.makedirs]
    exact .inl ⟨hd, hin⟩

/-- An encoded file always starts with the codec header, hence is
non-empty. -/
lemma formatHeader_ne_nil (fmt : String) : formatHeader fmt ≠ [] := by
  unfold formatHeader
  split <;> simp

/-- The bytes produced by `pilSave` are never empty. -/
lemma pilSave_bytes_ne_nil (img : PILImage) (fmt : String) (q : Int)
    (o : Bool) : (pilSave img fmt q o).bytes ≠ [] := by
  show formatHeader fmt ++ img.data ≠ []
  intro h
  exact formatHeader_ne_nil fmt (List.append_eq_nil.mp h).1

/-- The `InvalidBackendResult` exception for a `None` result differs from
every `CaptureFailed` exception. -/
lemma invalidNone_ne_captureFailed (m : String) :
    invalidBackendNoneError ≠ captureFailedError m := by
  intro h
  have h1 := PyError.runtimeError.inj h
  have h2 := congrArg (fun s => s.data.head?) h1
  simp [String.data_append] at h2

/-- The `InvalidBackendResult` exception for a wrongly-typed result differs
from every `CaptureFailed` exception. -/
lemma invalidTypes_ne_captureFailed (m : String) :
    invalidBackendTypesError ≠ captureFailedError m := by
  intro h
  have h1 := PyError.runtimeError.inj h
  have h2 := congrArg (fun s => s.data.head?) h1
  simp [String.data_append] at h2

/-- `_create_snapshot` only succeeds after invoking the backend. -/
lemma create_ok_called (capture : Except PyError CaptureResult)
    (sid : Int) (sz : Int × Int) (fmt : String) (img : PILImage) (called : Bool)
    (h : _create_snapshot capture sid sz fmt = (.ok img, called)) :
    called = true := by
  rcases sz with ⟨w, ht⟩
  unfold _create_snapshot at h
  repeat' split at h
  all_goals simp_all

/-- Anatomy of a successful `save_snapshot` call: the backend was invoked,
no collaborator failed, the parent directories were created and the
encoded image was written to `file_path` with the requested quality and
format. -/
lemma save_snapshot_ok (env : SnapshotEnv) (fs : FileSystem) (sid : Int)
    (sz : Int × Int) (p : FilePath) (q : Int) (fmt : String)
    (hok : (save_snapshot env fs sid sz p q fmt).1 = .ok ()) :
    ∃ img, _create_snapshot env.capture sid sz fmt = (.ok img, true) ∧
      env.mkdirError = Option.none ∧ env.fileSaveError = Option.none ∧
      save_snapshot env fs sid sz p q fmt =
        (.ok (), (fs.makedirs p.dropLast).writeFile p (pilSave img fmt q true),
         true) := by
  rcases hc : _create_snapshot env.capture sid sz fmt with ⟨r, called⟩
  cases r with
  | error e => simp [save_snapshot, hc] at hok
  | ok img =>
      have hcalled : called = true := create_ok_called _ _ _ _ _ _ hc
      subst hcalled
      rcases hm : env.mkdirError with _ | e
      · rcases hf : env.fileSaveError with _ | e
        · refine ⟨img, rfl, rfl, rfl, ?_⟩
          simp [save_snapshot, hc, hm, hf]
        · simp [save_snapshot, hc, hm, hf] at hok
      · simp [save_snapshot, hc, hm] at hok

/-! ### The claims -/

/-- C2: for every call to `create_snapshot`, `save_snapshot` or the
underlying `_create_snapshot` with a negative `source_id` or a
non-positive width or height, the call raises a `ValueError`
(InvalidArgument), the capture backend is not invoked, and the file
system is unchanged. -/
theorem claim_C2 (env : SnapshotEnv) (fs : FileSystem) (sid w h : Int)
    (p : FilePath) (q : Int) (fmt : String)
    (hbad : sid < 0 ∨ w ≤ 0 ∨ h ≤ 0) :
    (∃ m, _create_snapshot env.capture sid (w, h) fmt =
        (.error (.valueError m), false)) ∧
    (∃ m, create_snapshot env sid (w, h) =
        (.error (.valueError m), false)) ∧
    (∃ m, save_snapshot env fs sid (w, h) p q fmt =
        (.error (.valueError m), fs, false)) := by
  obtain ⟨m, hm⟩ := create_snapshot_invalid env.capture sid w h fmt hbad
  obtain ⟨m2, hm2⟩ := create_snapshot_invalid env.capture sid w h "jpeg" hbad
  refine ⟨⟨m, hm⟩, ⟨m2, ?_⟩, ⟨m, ?_⟩⟩
  · simp [create_snapshot, hm2, wrapCreate]
  · simp [save_snapshot, hm, wrapSave]

/-- C2 witness: the concrete call with `source_id = -1`. -/
theorem claim_C2_witness :
    (∃ m, _create_snapshot goodEnv.capture (-1) (100, 100) "jpeg" =
        (.error (.valueError m), false)) ∧
    (∃ m, create_snapshot goodEnv (-1) (100, 100) =
        (.error (.valueError m), false)) ∧
    (∃ m, save_snapshot goodEnv emptyFS (-1) (100, 100) samplePath 80 "jpeg" =
        (.error (.valueError m), emptyFS, false)) :=
  claim_C2 goodEnv emptyFS (-1) 100 100 samplePath 80 "jpeg" (by decide)

/-- C7 counterexample: calling `save_snapshot` with the unsupported format
"bmp" but also a negative `source_id` fails with the InvalidArgument
`ValueError` ("Source ID must be non-negative"), not with the
UnsupportedFormat one, because the source-id check runs first. -/
theorem claim_C7_counterexample :
    save_snapshot goodEnv emptyFS (-1) (100, 100) samplePath 80 "bmp" =
      (.error (.valueError "Source ID must be non-negative"), emptyFS, false) ∧
    PyError.valueError "Source ID must be non-negative" ≠
      PyError.valueError ("Unsupported format: " ++ "bmp") := by
  constructor
  · rfl
  · decide

/-- C7 as amended: for every call to `save_snapshot` (or `_create_snapshot`)
whose `source_id` and size are valid, a format outside {"jpeg", "png"}
fails with the UnsupportedFormat `ValueError` before the backend is
invoked and with the file system untouched; when `source_id` or the size
is also invalid, the InvalidArgument `ValueError` fires first instead
(still before any backend or file-system effect, see `claim_C2`). -/
theorem claim_C7_amended (env : SnapshotEnv) (fs : FileSystem) (sid w h : Int)
    (p : FilePath) (q : Int) (fmt : String)
    (hsid : 0 ≤ sid) (hw : 0 < w) (hh : 0 < h)
    (hfmt : fmt ∉ (["jpeg", "png"] : List String)) :
    _create_snapshot env.capture sid (w, h) fmt =
      (.error (.valueError ("Unsupported format: " ++ fmt)), false) ∧
    save_snapshot env fs sid (w, h) p q fmt =
      (.error (.valueError ("Unsupported format: " ++ fmt)), fs, false) := by
  have h1 : ¬ sid < 0 := by omega
  have h2 : ¬ (w ≤ 0 ∨ h ≤ 0) := by omega
  have hc : _create_snapshot env.capture sid (w, h) fmt =
      (.error (.valueError ("Unsupported format: " ++ fmt)), false) := by
    simp [_create_snapshot, h1, h2, hfmt]
  exact ⟨hc, by simp [save_snapshot, hc, wrapSave]⟩

/-- C7 witness: the concrete call with format "bmp" and valid arguments. -/
theorem claim_C7_witness :
    _create_snapshot goodEnv.capture 1 (100, 100) "bmp" =
      (.error (.valueError ("Unsupported format: " ++ "bmp")), false) ∧
    save_snapshot goodEnv emptyFS 1 (100, 100) samplePath 80 "bmp" =
      (.error (.valueError ("Unsupported format: " ++ "bmp")), emptyFS, false) :=
  claim_C7_amended goodEnv emptyFS 1 100 100 samplePath 80 "bmp"
    (by decide) (by decide) (by decide) (by decide)

/-- C1 counterexample: the registered `save_snapshot` tool does not accept
`quality` or `format` — its wrapper's signature (from which FastMCP builds
the input schema) has only `source_id`, `snapshot_size` and `file_path`. -/
theorem claim_C1_counterexample :
    "quality" ∉ saveSnapshotTool.params ∧
    "format" ∉ saveSnapshotTool.params ∧
    saveSnapshotTool.params = ["source_id", "snapshot_size", "file_path"] ∧
    saveSnapshotTool ∈ registeredTools := by
  refine ⟨by decide, by decide, rfl, by decide⟩

/-- C1 as amended: the registered `save_snapshot` tool accepts only
`source_id`, `snapshot_size` and `file_path`; every call through it uses
the underlying function's defaults `quality = 80`, `format = "jpeg"`, so
every file it successfully writes is a jpeg encoded with quality 80 (the
optional parameters exist on the underlying `save_snapshot` function, but
the tool does not expose them, so a tool caller cannot override the
defaults). -/
theorem claim_C1_amended (env : SnapshotEnv) (fs : FileSystem) (sid : Int)
    (sz : Int × Int) (p : FilePath) :
    save_snapshot_tool env fs sid sz p =
      save_snapshot env fs sid sz p 80 "jpeg" ∧
    ((save_snapshot_tool env fs sid sz p).1 = .ok () →
      ∃ enc, (save_snapshot_tool env fs sid sz p).2.1.readFile p = some enc ∧
        enc.format = "jpeg" ∧ enc.quality = 80 ∧ enc.optimize = true) := by
  constructor
  · rfl
  · intro hok
    obtain ⟨img, hcimg, hmk, hfsv, heq⟩ :=
      save_snapshot_ok env fs sid sz p 80 "jpeg" hok
    show ∃ enc,
      (save_snapshot env fs sid sz p 80 "jpeg").2.1.readFile p = some enc ∧
        enc.format = "jpeg" ∧ enc.quality = 80 ∧ enc.optimize = true
    rw [heq]
    exact ⟨pilSave img "jpeg" 80 true, readFile_writeFile _ _ _, rfl, rfl, rfl⟩

/-- C1 witness: a concrete successful call through the registered tool. -/
theorem claim_C1_witness :
    save_snapshot_tool goodEnv emptyFS 1 (2, 2) samplePath =
      save_snapshot goodEnv emptyFS 1 (2, 2) samplePath 80 "jpeg" ∧
    (∃ enc, (save_snapshot_tool goodEnv emptyFS 1 (2, 2) samplePath).2.1.readFile
        samplePath = some enc ∧
      enc.format = "jpeg" ∧ enc.quality = 80 ∧ enc.optimize = true) :=
  ⟨(claim_C1_amended goodEnv emptyFS 1 (2, 2) samplePath).1,
   (claim_C1_amended goodEnv emptyFS 1 (2, 2) samplePath).2 (by rfl)⟩

/-- C3: a structurally invalid backend result (`None`, or a pair whose
components are not an ndarray and a `traa.Size`) makes the snapshot
operation fail with the InvalidBackendResult exception, and that
exception is distinguishable from the CaptureFailed exception raised when
the backend itself reports a failure, whatever the backend's failure
message was. -/
theorem claim_C3 (sid w h : Int) (fmt : String) (m : String)
    (hsid : 0 ≤ sid) (hw : 0 < w) (hh : 0 < h)
    (hfmt : fmt ∈ (["jpeg", "png"] : List String)) :
    _create_snapshot (.ok .none) sid (w, h) fmt =
      (.error invalidBackendNoneError, true) ∧
    (∀ x y : PyObj, (∀ a s, (x, y) ≠ (.ndarray a, .size s)) →
      _create_snapshot (.ok (.pair x y)) sid (w, h) fmt =
        (.error invalidBackendTypesError, true)) ∧
    _create_snapshot (.error (.traaError m)) sid (w, h) fmt =
      (.error (captureFailedError m), true) ∧
    invalidBackendNoneError ≠ captureFailedError m ∧
    invalidBackendTypesError ≠ captureFailedError m := by
  refine ⟨?_, ?_, ?_, invalidNone_ne_captureFailed m,
    invalidTypes_ne_captureFailed m⟩
  · rw [create_snapshot_valid _ sid w h fmt hsid hw hh hfmt]
    rfl
  · intro x y hxy
    rw [create_snapshot_valid _ sid w h fmt hsid hw hh hfmt]
    cases x <;> cases y <;> first
      | rfl
      | exact absurd rfl (hxy _ _)
  · rw [create_snapshot_valid _ sid w h fmt hsid hw hh hfmt]
    rfl

/-- C3 witness: concrete invalid backend results with valid arguments. -/
theorem claim_C3_witness :
    _create_snapshot (.ok .none) 1 (100, 100) "jpeg" =
      (.error invalidBackendNoneError, true) ∧
    (∀ x y : PyObj, (∀ a s, (x, y) ≠ (.ndarray a, .size s)) →
      _create_snapshot (.ok (.pair x y)) 1 (100, 100) "jpeg" =
        (.error invalidBackendTypesError, true)) ∧
    _create_snapshot (.error (.traaError "Test error")) 1 (100, 100) "jpeg" =
      (.error (captureFailedError "Test error"), true) ∧
    invalidBackendNoneError ≠ captureFailedError "Test error" ∧
    invalidBackendTypesError ≠ captureFailedError "Test error" :=
  claim_C3 1 100 100 "jpeg" "Test error" (by decide) (by decide) (by decide)
    (by decide)

/-- C4: every successful `create_snapshot` call returns an image whose
declared format is "jpeg" and whose bytes were encoded with format
"jpeg", quality 60 and optimize enabled, whatever the arguments were. -/
theorem claim_C4 (env : SnapshotEnv) (sid : Int) (sz : Int × Int)
    (m : MCPImage) (hok : (create_snapshot env sid sz).1 = .ok m) :
    m.format = "jpeg" ∧ m.data.format = "jpeg" ∧ m.data.quality = 60 ∧
    m.data.optimize = true := by
  rcases hc : _create_snapshot env.capture sid sz "jpeg" with ⟨r, called⟩
  cases r with
  | error e => simp [create_snapshot, hc] at hok
  | ok img =>
      simp [create_snapshot, hc] at hok
      rw [← hok]
      exact ⟨rfl, rfl, rfl, rfl⟩

/-- The image a successful `create_snapshot goodEnv 1 (2, 2)` returns. -/
def sampleMCP : MCPImage :=
  ⟨⟨"jpeg", 60, true, [255, 216, 255, 224] ++ List.replicate 12 7⟩, "jpeg"⟩

/-- C4 witness: the concrete successful call. -/
theorem claim_C4_witness :
    (create_snapshot goodEnv 1 (2, 2)).1 = .ok sampleMCP ∧
    (sampleMCP.format = "jpeg" ∧ sampleMCP.data.format = "jpeg" ∧
     sampleMCP.data.quality = 60 ∧ sampleMCP.data.optimize = true) :=
  ⟨by rfl, claim_C4 goodEnv 1 (2, 2) sampleMCP (by rfl)⟩

/-- C5: a `save_snapshot` call with valid arguments whose backend capture
succeeds creates every missing parent directory of `file_path` and writes
a non-empty encoded file there; and if directory creation fails, the
failure is surfaced as an exception (`wrapSave e`, a re-raised
`ValueError` or a wrapping `RuntimeError`), never swallowed. -/
theorem claim_C5 (env : SnapshotEnv) (fs : FileSystem) (sid w h : Int)
    (p : FilePath) (q : Int) (fmt : String) (a : NDArray) (s : TraaSize)
    (hsid : 0 ≤ sid) (hw : 0 < w) (hh : 0 < h)
    (hfmt : fmt ∈ (["jpeg", "png"] : List String))
    (hcap : env.capture = .ok (.pair (.ndarray a) (.size s)))
    (hch : a.channels = 3 ∨ a.channels = 4) :
    (env.mkdirError = Option.none → env.fileSaveError = Option.none →
      (save_snapshot env fs sid (w, h) p q fmt).1 = .ok () ∧
      (∀ d ∈ ancestors p.dropLast,
        d ∈ (save_snapshot env fs sid (w, h) p q fmt).2.1.dirs) ∧
      (∃ enc,
        (save_snapshot env fs sid (w, h) p q fmt).2.1.readFile p = some enc ∧
        enc.bytes ≠ [])) ∧
    (∀ e, env.mkdirError = some e →
      (save_snapshot env fs sid (w, h) p q fmt).1 = .error (wrapSave e)) := by
  have hc := create_snapshot_valid env.capture sid w h fmt hsid hw hh hfmt
  obtain ⟨img0, himg0⟩ : ∃ img0, PILImage.fromarray a = .ok img0 := by
    rcases hch with hch | hch
    · exact ⟨⟨"RGB", a.cols, a.rows, a.data⟩, by simp [PILImage.fromarray, hch]⟩
    · exact ⟨⟨"RGBA", a.cols, a.rows, a.data⟩, by simp [PILImage.fromarray, hch]⟩
  have htry : captureTry env.capture fmt =
      .ok (if fmt = "jpeg" then img0.convertRGB else img0) := by
    rw [hcap]
    simp [captureTry, himg0]
  have hcs : _create_snapshot env.capture sid (w, h) fmt =
      (.ok (if fmt = "jpeg" then img0.convertRGB else img0), true) := by
    rw [hc, htry]
  constructor
  · intro hmk hfsv
    have heq : save_snapshot env fs sid (w, h) p q fmt =
        (.ok (), (fs.makedirs p.dropLast).writeFile p
          (pilSave (if fmt = "jpeg" then img0.convertRGB else img0) fmt q true),
         true) := by
      simp [save_snapshot, hcs, hmk, hfsv]
    refine ⟨by rw [heq], ?_, ?_⟩
    · intro d hd
      rw [heq]
      show d ∈ (FileSystem.writeFile _ _ _).dirs
      simp [FileSystem.writeFile]
      exact mem_makedirs fs _ d hd
    · rw [heq]
      exact ⟨_, readFile_writeFile _ _ _, pilSave_bytes_ne_nil _ _ _ _⟩
  · intro e he
    simp [save_snapshot, hcs, he]

/-- C5 witness: a concrete save to a path with missing parent directories,
and a concrete directory-creation failure. -/
theorem claim_C5_witness :
    ((goodEnv.mkdirError = Option.none → goodEnv.fileSaveError = Option.none →
      (save_snapshot goodEnv emptyFS 1 (2, 2) samplePath 100 "png").1 = .ok () ∧
      (∀ d ∈ ancestors samplePath.dropLast,
        d ∈ (save_snapshot goodEnv emptyFS 1 (2, 2) samplePath 100 "png").2.1.dirs) ∧
      (∃ enc,
        (save_snapshot goodEnv emptyFS 1 (2, 2) samplePath 100 "png").2.1.readFile
          samplePath = some enc ∧ enc.bytes ≠ [])) ∧
     (∀ e, goodEnv.mkdirError = some e →
      (save_snapshot goodEnv emptyFS 1 (2, 2) samplePath 100 "png").1 =
        .error (wrapSave e))) :=
  claim_C5 goodEnv emptyFS 1 2 2 samplePath 100 "png" sampleArray ⟨2, 2⟩
    (by decide) (by decide) (by decide) (by decide) rfl (Or.inr rfl)

/-- C6: for a successfully captured 4-channel RGBA frame, encoding with
format "jpeg" first converts the image to 3-channel RGB, dropping the
alpha samples from the pixel buffer, while format "png" leaves the RGBA
buffer unchanged. -/
theorem claim_C6 (sid w h : Int) (a : NDArray) (s : TraaSize)
    (hsid : 0 ≤ sid) (hw : 0 < w) (hh : 0 < h) (hch : a.channels = 4) :
    _create_snapshot (.ok (.pair (.ndarray a) (.size s))) sid (w, h) "jpeg" =
      (.ok ⟨"RGB", a.cols, a.rows, dropAlpha a.data⟩, true) ∧
    _create_snapshot (.ok (.pair (.ndarray a) (.size s))) sid (w, h) "png" =
      (.ok ⟨"RGBA", a.cols, a.rows, a.data⟩, true) := by
  have hja := create_snapshot_valid (.ok (.pair (.ndarray a) (.size s)))
    sid w h "jpeg" hsid hw hh (by decide)
  have hpa := create_snapshot_valid (.ok (.pair (.ndarray a) (.size s)))
    sid w h "png" hsid hw hh (by decide)
  rw [hja, hpa]
  constructor
  · simp [captureTry, PILImage.fromarray, hch, PILImage.convertRGB]
  · simp [captureTry, PILImage.fromarray, hch]

/-- C6 witness: the concrete 2×2 RGBA frame. -/
theorem claim_C6_witness :
    _create_snapshot (.ok (.pair (.ndarray sampleArray) (.size ⟨2, 2⟩)))
        1 (2, 2) "jpeg" =
      (.ok ⟨"RGB", sampleArray.cols, sampleArray.rows,
        dropAlpha sampleArray.data⟩, true) ∧
    _create_snapshot (.ok (.pair (.ndarray sampleArray) (.size ⟨2, 2⟩)))
        1 (2, 2) "png" =
      (.ok ⟨"RGBA", sampleArray.cols, sampleArray.rows, sampleArray.data⟩,
       true) :=
  claim_C6 1 2 2 sampleArray ⟨2, 2⟩ (by decide) (by decide) (by decide) rfl

/-- C8: the client-side boolean coercion maps a string to `true` exactly
when its lower-cased form is one of the accepted truthy values, and to
`false` otherwise; being a total `String → Bool` function, it cannot
raise on any input. -/
theorem claim_C8 (s : String) :
    (coerce_boolean s = true ↔
      (s.toLower = "true" ∨ s.toLower = "yes" ∨ s.toLower = "1" ∨
       s.toLower = "t")) ∧
    (coerce_boolean s = false ↔
      ¬(s.toLower = "true" ∨ s.toLower = "yes" ∨ s.toLower = "1" ∨
        s.toLower = "t")) := by
  have h : coerce_boolean s = true ↔
      (s.toLower = "true" ∨ s.toLower = "yes" ∨ s.toLower = "1" ∨
       s.toLower = "t") := by
    simp [coerce_boolean, truthyValues]
  refine ⟨h, ?_⟩
  rw [← h]
  cases coerce_boolean s <;> simp

/-- C8 witness: the coercion evaluated on a concrete mixed-case input. -/
theorem claim_C8_witness :
    (coerce_boolean "TRUE" = true ↔
      ("TRUE".toLower = "true" ∨ "TRUE".toLower = "yes" ∨
       "TRUE".toLower = "1" ∨ "TRUE".toLower = "t")) ∧
    (coerce_boolean "TRUE" = false ↔
      ¬("TRUE".toLower = "true" ∨ "TRUE".toLower = "yes" ∨
        "TRUE".toLower = "1" ∨ "TRUE".toLower = "t")) :=
  claim_C8 "TRUE"

/-- An environment whose backend raises a non-traa, non-Value exception. -/
def badEnv : SnapshotEnv :=
  ⟨.error (.osError "disk full"), Option.none, Option.none⟩

/-- C9: every exception escaping `create_snapshot` or `save_snapshot` is a
`ValueError` (re-raised validation error) or a `RuntimeError` (everything
else, wrapped), whatever exceptions the backend, the directory creation
or the file write raise. -/
theorem claim_C9 (env : SnapshotEnv) (fs : FileSystem) (sid : Int)
    (sz : Int × Int) (p : FilePath) (q : Int) (fmt : String) :
    (∀ e, (create_snapshot env sid sz).1 = .error e →
      (∃ m, e = .valueError m) ∨ (∃ m, e = .runtimeError m)) ∧
    (∀ e, (save_snapshot env fs sid sz p q fmt).1 = .error e →
      (∃ m, e = .valueError m) ∨ (∃ m, e = .runtimeError m)) := by
  constructor
  · intro e he
    rcases hc : _create_snapshot env.capture sid sz "jpeg" with ⟨r, called⟩
    cases r with
    | error e2 =>
        simp [create_snapshot, hc] at he
        rcases wrapCreate_shape e2 with ⟨m, hm⟩ | ⟨m, hm⟩
        · exact .inl ⟨m, by simp_all⟩
        · exact .inr ⟨m, by simp_all⟩
    | ok img => simp [create_snapshot, hc] at he
  · intro e he
    rcases hc : _create_snapshot env.capture sid sz fmt with ⟨r, called⟩
    cases r with
    | error e2 =>
        simp [save_snapshot, hc] at he
        rcases wrapSave_shape e2 with ⟨m, hm⟩ | ⟨m, hm⟩
        · exact .inl ⟨m, by simp_all⟩
        · exact .inr ⟨m, by simp_all⟩
    | ok img =>
        rcases hm : env.mkdirError with _ | e2
        · rcases hf : env.fileSaveError with _ | e2
          · simp [save_snapshot, hc, hm, hf] at he
          · simp [save_snapshot, hc, hm, hf] at he
            rcases wrapSave_shape e2 with ⟨m, hmm⟩ | ⟨m, hmm⟩
            · exact .inl ⟨m, by simp_all⟩
            · exact .inr ⟨m, by simp_all⟩
        · simp [save_snapshot, hc, hm] at he
          rcases wrapSave_shape e2 with ⟨m, hmm⟩ | ⟨m, hmm⟩
          · exact .inl ⟨m, by simp_all⟩
          · exact .inr ⟨m, by simp_all⟩

/-- C9 witness: a backend `OSError` escapes `create_snapshot` as a
`ValueError` or `RuntimeError` (here, concretely, a `RuntimeError`). -/
theorem claim_C9_witness :
    (∃ m, (PyError.runtimeError
      "Unexpected error during snapshot creation: Unexpected error during snapshot creation: disk full") =
      .valueError m) ∨
    (∃ m, (PyError.runtimeError
      "Unexpected error during snapshot creation: Unexpected error during snapshot creation: disk full") =
      .runtimeError m) :=
  (claim_C9 badEnv emptyFS 1 (2, 2) samplePath 80 "jpeg").1
    (.runtimeError
      "Unexpected error during snapshot creation: Unexpected error during snapshot creation: disk full")
    (by rfl)

/-- C10: `enum_screen_sources` on any backend source list returns a list of
the same length, in the same order, whose i-th element copies the i-th
backend source's id, title, is_window and rect fields verbatim. -/
theorem claim_C10 (sources : List TraaScreenSourceInfo) :
    ∃ l : List SimpleScreenSourceInfo,
      enum_screen_sources (.ok sources) = .ok l ∧
      l.length = sources.length ∧
      ∀ i : Fin sources.length, ∃ hi : i.val < l.length,
        (l.get ⟨i.val, hi⟩).id = (sources.get i).id ∧
        (l.get ⟨i.val, hi⟩).title = (sources.get i).title ∧
        (l.get ⟨i.val, hi⟩).is_window = (sources.get i).is_window ∧
        (l.get ⟨i.val, hi⟩).rect =
          ((sources.get i).rect.left, (sources.get i).rect.top,
           (sources.get i).rect.right, (sources.get i).rect.bottom) := by
  refine ⟨sources.map (fun s : TraaScreenSourceInfo =>
    (⟨s.id, s.title, s.is_window,
      (s.rect.left, s.rect.top, s.rect.right, s.rect.bottom)⟩ :
      SimpleScreenSourceInfo)), rfl, by simp, ?_⟩
  intro i
  have hi : i.val < (sources.map (fun s =>
      (⟨s.id, s.title, s.is_window,
        (s.rect.left, s.rect.top, s.rect.right, s.rect.bottom)⟩ :
        SimpleScreenSourceInfo))).length := by simp [i.isLt]
  refine ⟨hi, ?_, ?_, ?_, ?_⟩ <;>
    simp [List.get_eq_getElem, List.getElem_map]

/-- C10 witness: the single-source scenario from the repository's tests. -/
theorem claim_C10_witness :
    ∃ l : List SimpleScreenSourceInfo,
      enum_screen_sources (.ok [sampleSource]) = .ok l ∧
      l.length = [sampleSource].length ∧
      ∀ i : Fin [sampleSource].length, ∃ hi : i.val < l.length,
        (l.get ⟨i.val, hi⟩).id = ([sampleSource].get i).id ∧
        (l.get ⟨i.val, hi⟩).title = ([sampleSource].get i).title ∧
        (l.get ⟨i.val, hi⟩).is_window = ([sampleSource].get i).is_window ∧
        (l.get ⟨i.val, hi⟩).rect =
          (([sampleSource].get i).rect.left, ([sampleSource].get i).rect.top,
           ([sampleSource].get i).rect.right,
           ([sampleSource].get i).rect.bottom) :=
  claim_C10 [sampleSource]

end TraaMcp
